import Mathlib

/-!
# Verification of the UTSP quick-start standalone repository

Shallow embedding of `src/applications/SpaceDemo.ts` (the example game) and of
the `UTSPClient` React lifecycle wrapper, together with proofs about the
behaviors the specification claims.

Modelling conventions:
* JavaScript numbers are embedded as rationals (`ℚ`); all arithmetic used by
  the game (addition, subtraction, multiplication, `Math.min`/`Math.max`,
  `Math.floor`, comparisons) is exact at these magnitudes, so no floating
  point rounding is observable in the verified properties.
* `Math.random()` is embedded as an explicit stream `g : ℕ → ℚ` of draws,
  consumed in program order through an index that each operation threads.
  A real random source satisfies `0 ≤ g n < 1` for every `n`.
* The `for (const asteroid of state.asteroids)` loop iterates the live array
  (the JavaScript array iterator re-reads `length` each step, so elements
  pushed during the loop are visited too).  It is embedded with an explicit
  iteration budget (`fuel`): an element is pushed only while the array is
  shorter than `ASTEROIDS_MAX`, so the loop performs at most
  `initial length + ASTEROIDS_MAX` iterations, and the budget chosen at the
  call site is proven sufficient below (`asteroidLoop_fuel_sufficient`).
-/

namespace SpaceDemo

-- ════════════════════════════════════════════════════════════════════════════
-- SpaceDemo: constants (src/applications/SpaceDemo.ts, lines 57-98)
-- ════════════════════════════════════════════════════════════════════════════

def WIDTH : ℚ := 60
def HEIGHT : ℚ := 20

def TRANSPARENT : ℤ := 255

def COLOR_DEEP_SPACE : ℤ := 0
def COLOR_DIM_STAR : ℤ := 1
def COLOR_MEDIUM_STAR : ℤ := 2
def COLOR_BRIGHT_STAR : ℤ := 3
def COLOR_SHIP : ℤ := 4
def COLOR_ASTEROID : ℤ := 6
def COLOR_WHITE : ℤ := 7
def COLOR_GOLD : ℤ := 8
def COLOR_GAMEOVER : ℤ := 9
def COLOR_LOST_HEART : ℤ := 10

def ASTEROIDS_START : ℕ := 2
def ASTEROIDS_MAX : ℕ := 10
def ASTEROIDS_PER_SCORE : ℚ := 3
def DIFFICULTY_FULL_AT : ℚ := 20

def TICK_RATE : ℤ := 30
def SPEED_SHIP : ℚ := 1
def SPEED_ASTEROID : ℚ := 1
def SPEED_STARS_FAR : ℚ := 1/2
def SPEED_STARS_NEAR : ℚ := 3/2

-- ════════════════════════════════════════════════════════════════════════════
-- SpaceDemo: data model (src/applications/SpaceDemo.ts, lines 21-51)
-- ════════════════════════════════════════════════════════════════════════════

structure Star where
  x : ℚ
  y : ℚ
  color : ℤ
deriving DecidableEq

structure Asteroid where
  x : ℚ
  y : ℚ
  char : String
deriving DecidableEq

instance : Inhabited Asteroid := ⟨⟨0, 0, "o"⟩⟩

/-- The per-user game state (`SpaceUserData`).  The four `Layer` references of
the TypeScript record are handles into the external runtime and carry no game
state of their own; the orders the demo submits to them are modelled
separately (`updateUserOrders`). -/
structure SpaceUserData where
  starsFar : List Star
  starsNear : List Star
  asteroids : List Asteroid
  shipX : ℚ
  shipY : ℚ
  score : ℤ
  lives : ℤ
  invincibilityFrames : ℤ
  gameOver : Bool
deriving DecidableEq

/-- The per-tick inputs `updateUser` reads from the user:
`getAxis("MoveX")`, `getAxis("MoveY")`, `getButtonJustPressed("Restart")`. -/
structure Inputs where
  moveX : ℚ
  moveY : ℚ
  restartJustPressed : Bool
deriving DecidableEq

-- ════════════════════════════════════════════════════════════════════════════
-- SpaceDemo: createAsteroid (lines 357-387), generateStars (343-349),
-- scrollStars (390-398)
-- ════════════════════════════════════════════════════════════════════════════

def asteroidChars : List String := ["o", "O", "0"]

/-- `createAsteroid(score)`.  Returns the asteroid together with the index of
the next unconsumed random draw.  `Math.random()` is called for the character
choice, then (lazily, only while `centerBias < 1`) for the center-unlock test,
then for the Y position (two draws on the edge branch, one on the full-range
branch), then for the X offset. -/
def createAsteroid (g : ℕ → ℚ) (k : ℕ) (score : ℤ) : Asteroid × ℕ :=
  let char := asteroidChars.getD (Int.toNat ⌊g k * 3⌋) "o"
  let centerBias : ℚ := min 1 ((score : ℚ) / DIFFICULTY_FULL_AT)
  let minY : ℚ := 2
  let maxY : ℚ := HEIGHT - 3
  let halfRange : ℚ := (maxY - minY) / 2
  if centerBias < 1 then
    if g (k + 1) > centerBias then
      let edgeRange := halfRange * (2/5)
      let y := if g (k + 2) < 1/2 then minY + g (k + 3) * edgeRange
               else maxY - g (k + 3) * edgeRange
      (⟨WIDTH + g (k + 4) * 30, y, char⟩, k + 5)
    else
      (⟨WIDTH + g (k + 3) * 30, minY + g (k + 2) * (maxY - minY), char⟩, k + 4)
  else
    (⟨WIDTH + g (k + 2) * 30, minY + g (k + 1) * (maxY - minY), char⟩, k + 3)

/-- `generateStars(count, colors)`: each star consumes three draws
(x, y, color index). -/
def generateStars (g : ℕ → ℚ) (k : ℕ) (colors : List ℤ) : ℕ → List Star × ℕ
  | 0 => ([], k)
  | n + 1 =>
    let star : Star :=
      ⟨g k * WIDTH, g (k + 1) * HEIGHT,
        colors.getD (Int.toNat ⌊g (k + 2) * colors.length⌋) 0⟩
    let rest := generateStars g (k + 3) colors n
    (star :: rest.1, rest.2)

/-- One star of `scrollStars`: move left, and when off-screen reset `x` to
`WIDTH` and redraw `y` (one random draw). -/
def scrollStar (g : ℕ → ℚ) (k : ℕ) (speed : ℚ) (s : Star) : Star × ℕ :=
  let x := s.x - speed
  if x < 0 then (⟨WIDTH, g k * HEIGHT, s.color⟩, k + 1)
  else (⟨x, s.y, s.color⟩, k)

def scrollStars (g : ℕ → ℚ) (k : ℕ) (speed : ℚ) : List Star → List Star × ℕ
  | [] => ([], k)
  | s :: rest =>
    let first := scrollStar g k speed s
    let tail := scrollStars g first.2 speed rest
    (first.1 :: tail.1, tail.2)

-- ════════════════════════════════════════════════════════════════════════════
-- SpaceDemo: the asteroid loop of updateUser (lines 250-291)
-- ════════════════════════════════════════════════════════════════════════════

/-- The mutable variables of `updateUser` visible to the asteroid loop:
the asteroid array, `score`, `lives`, `invincibilityFrames`, `gameOver`, and
the random-draw cursor. -/
structure LoopState where
  asteroids : List Asteroid
  score : ℤ
  lives : ℤ
  invincibilityFrames : ℤ
  gameOver : Bool
  k : ℕ
deriving DecidableEq

/-- Lines 277-290: recycle the asteroid at index `i` when it has left the
screen (`x < -2`), bump the score, and push one extra asteroid while the
array is below the difficulty target. -/
def offscreenCheck (g : ℕ → ℚ) (i : ℕ) (st : LoopState) : LoopState :=
  let a := st.asteroids.getD i default
  if a.x < -2 then
    let fresh := createAsteroid g st.k st.score
    let score := st.score + 1
    let targetCount : ℤ :=
      min (ASTEROIDS_MAX : ℤ) ((ASTEROIDS_START : ℤ) + ⌊(score : ℚ) / ASTEROIDS_PER_SCORE⌋)
    let asts := st.asteroids.set i fresh.1
    if (asts.length : ℤ) < targetCount then
      let fresh2 := createAsteroid g fresh.2 score
      { st with asteroids := asts ++ [fresh2.1], score := score, k := fresh2.2 }
    else
      { st with asteroids := asts, score := score, k := fresh.2 }
  else st

/-- One iteration of the `for (const asteroid of state.asteroids)` body at
index `i` (lines 250-291): move the asteroid left, test the collision against
the ship body and wings, apply damage when not invincible (`continue`-ing past
the off-screen check when the hit asteroid is recycled), then run the
off-screen recycling. -/
def processAsteroid (g : ℕ → ℚ) (shipGX shipGY : ℤ) (i : ℕ) (st : LoopState) : LoopState :=
  let a := st.asteroids.getD i default
  let ax := a.x - SPEED_ASTEROID
  let aGX : ℤ := ⌊ax⌋
  let aGY : ℤ := ⌊a.y⌋
  let hitBody := aGY = shipGY ∧ shipGX ≤ aGX ∧ aGX ≤ shipGX + 2
  let hitWings := (aGY = shipGY - 1 ∨ aGY = shipGY + 1) ∧ aGX = shipGX + 1
  let st1 := { st with asteroids := st.asteroids.set i ⟨ax, a.y, a.char⟩ }
  if (hitBody ∨ hitWings) ∧ st.invincibilityFrames ≤ 0 then
    let lives := st.lives - 1
    if lives ≤ 0 then
      offscreenCheck g i { st1 with lives := lives, gameOver := true }
    else
      let fresh := createAsteroid g st1.k st1.score
      { st1 with lives := lives, invincibilityFrames := TICK_RATE,
                 asteroids := st1.asteroids.set i fresh.1, k := fresh.2 }
  else
    offscreenCheck g i st1

/-- The asteroid loop.  `fuel` is an explicit iteration budget: the loop stops
either when the index reaches the (possibly grown) array length, like the
array iterator of the source, or when the budget is exhausted.  At the call
site the budget `length + ASTEROIDS_MAX` is used, which
`asteroidLoop_fuel_sufficient` below proves is never exhausted first. -/
def asteroidLoop (g : ℕ → ℚ) (shipGX shipGY : ℤ) : ℕ → ℕ → LoopState → LoopState
  | 0, _, st => st
  | fuel + 1, i, st =>
    if i < st.asteroids.length then
      asteroidLoop g shipGX shipGY fuel (i + 1) (processAsteroid g shipGX shipGY i st)
    else st

-- ════════════════════════════════════════════════════════════════════════════
-- SpaceDemo: updateUser (lines 209-295), resetGame (330-340), initUser (177-191)
-- ════════════════════════════════════════════════════════════════════════════

/-- The body of `updateUser` after the game-over guard (lines 230-295 minus
rendering): decrement the recovery timer, clamp the ship position by the read
axes, scroll both star layers, then run the asteroid loop. -/
def tickBody (g : ℕ → ℚ) (k : ℕ) (inp : Inputs) (s : SpaceUserData) : SpaceUserData :=
  let inv := if s.invincibilityFrames > 0 then s.invincibilityFrames - 1
             else s.invincibilityFrames
  let shipX := max 1 (min 15 (s.shipX + inp.moveX * SPEED_SHIP))
  let shipY := max 2 (min (HEIGHT - 3) (s.shipY + inp.moveY * SPEED_SHIP))
  let far := scrollStars g k SPEED_STARS_FAR s.starsFar
  let near := scrollStars g far.2 SPEED_STARS_NEAR s.starsNear
  let shipGX : ℤ := ⌊shipX⌋
  let shipGY : ℤ := ⌊shipY⌋
  let st0 : LoopState := ⟨s.asteroids, s.score, s.lives, inv, s.gameOver, near.2⟩
  let stf := asteroidLoop g shipGX shipGY (st0.asteroids.length + ASTEROIDS_MAX) 0 st0
  { starsFar := far.1, starsNear := near.1, asteroids := stf.asteroids,
    shipX := shipX, shipY := shipY, score := stf.score, lives := stf.lives,
    invincibilityFrames := stf.invincibilityFrames, gameOver := stf.gameOver }

/-- Replace every asteroid of the (truncated) array by `createAsteroid(0)`
(the `forEach` of `resetGame`), threading the random cursor. -/
def freshenAsteroids (g : ℕ → ℚ) (k : ℕ) : List Asteroid → List Asteroid × ℕ
  | [] => ([], k)
  | _ :: rest =>
    let fresh := createAsteroid g k 0
    let tail := freshenAsteroids g fresh.2 rest
    (fresh.1 :: tail.1, tail.2)

/-- `resetGame` (lines 330-340): restore the initial scalar fields, truncate
the asteroid array to `ASTEROIDS_START` entries and refresh each of them. -/
def resetGame (g : ℕ → ℚ) (k : ℕ) (s : SpaceUserData) : SpaceUserData × ℕ :=
  let asts := freshenAsteroids g k (s.asteroids.take ASTEROIDS_START)
  ({ s with shipX := 10, shipY := HEIGHT / 2, score := 0, lives := 3,
            invincibilityFrames := 0, gameOver := false, asteroids := asts.1 },
   asts.2)

/-- `updateUser` (state part).  When the game is over the function returns
early (unchanged state) unless Restart was just pressed, in which case the
state is reset and the tick processed normally. -/
def updateUser (g : ℕ → ℚ) (k : ℕ) (inp : Inputs) (s : SpaceUserData) : SpaceUserData :=
  if s.gameOver then
    if inp.restartJustPressed then
      let r := resetGame g k s
      tickBody g r.2 inp r.1
    else s
  else tickBody g k inp s

/-- `initUser` (game-state part, lines 177-191): star fields, two starting
asteroids, ship at (10, HEIGHT/2), 3 lives. -/
def initUserState (g : ℕ → ℚ) (k : ℕ) : SpaceUserData :=
  let far := generateStars g k [COLOR_DIM_STAR, COLOR_MEDIUM_STAR] 40
  let near := generateStars g far.2 [COLOR_MEDIUM_STAR, COLOR_BRIGHT_STAR] 25
  let a0 := createAsteroid g near.2 0
  let a1 := createAsteroid g a0.2 0
  { starsFar := far.1, starsNear := near.1, asteroids := [a0.1, a1.1],
    shipX := 10, shipY := HEIGHT / 2, score := 0, lives := 3,
    invincibilityFrames := 0, gameOver := false }

/-- States reachable from a fresh user by any sequence of `updateUser` ticks,
with arbitrary inputs and arbitrary random draws. -/
inductive Reachable : SpaceUserData → Prop where
  | init : ∀ g k, Reachable (initUserState g k)
  | step : ∀ g k inp s, Reachable s → Reachable (updateUser g k inp s)

-- ════════════════════════════════════════════════════════════════════════════
-- SpaceDemo: rendering (lines 400-478)
-- ════════════════════════════════════════════════════════════════════════════

/-- One entry of a `dotCloudMultiColor` order. -/
structure Dot where
  posX : ℤ
  posY : ℤ
  charCode : String
  fgColorCode : ℤ
  bgColorCode : ℤ
deriving DecidableEq

/-- The orders the demo builds through `OrderBuilder`. -/
inductive Order where
  | dotCloudMultiColor (dots : List Dot)
  | sprite (x y : ℚ) (spriteId : ℤ) (fg bg : ℤ)
  | text (x y : ℚ) (str : String) (fg bg : ℤ)
deriving DecidableEq

/-- `n` copies of `str` concatenated. -/
def repeatStr (str : String) : ℕ → String
  | 0 => ""
  | n + 1 => str ++ repeatStr str n

/-- `String.prototype.repeat`: throws a `RangeError` (modelled as `none`) when
the count is negative. -/
def jsRepeat (str : String) (n : ℤ) : Option String :=
  if n < 0 then none
  else some (repeatStr str n.toNat)

def heart : String := "♥"

/-- `renderStars`: one dot per star. -/
def renderStarsOrders (stars : List Star) : List Order :=
  [Order.dotCloudMultiColor (stars.map fun s =>
    ⟨⌊s.x⌋, ⌊s.y⌋, ".", s.color, TRANSPARENT⟩)]

/-- `renderGame`: asteroid dot cloud plus the ship sprite, colored by health
status (alarm flash while the recovery timer runs). -/
def renderGameOrders (s : SpaceUserData) : List Order :=
  let asteroidDots := s.asteroids.map fun a =>
    (⟨⌊a.x⌋, ⌊a.y⌋, a.char, COLOR_ASTEROID, TRANSPARENT⟩ : Dot)
  let shipX : ℚ := (⌊s.shipX⌋ : ℚ)
  let shipY : ℚ := (⌊s.shipY⌋ : ℚ) - 1
  let shipColor :=
    if s.gameOver then COLOR_GAMEOVER
    else if s.invincibilityFrames > 0 then
      if ⌊(s.invincibilityFrames : ℚ) / 5⌋ % 2 = 0 then COLOR_GAMEOVER else COLOR_SHIP
    else COLOR_SHIP
  [Order.dotCloudMultiColor asteroidDots,
   Order.sprite shipX shipY 0 shipColor TRANSPARENT]

/-- `renderUI` (lines 458-478).  The orders array literal evaluates both
`"♥".repeat` calls before anything is submitted, so a negative count aborts
the whole list (`none`). -/
def renderUIOrders (s : SpaceUserData) : Option (List Order) :=
  match jsRepeat heart s.lives, jsRepeat heart (3 - s.lives) with
  | some red, some gray =>
    some ([Order.text 1 0 "SPACE DEMO" COLOR_WHITE COLOR_DEEP_SPACE,
           Order.text 1 1 red COLOR_GAMEOVER TRANSPARENT,
           Order.text (1 + (s.lives : ℚ)) 1 gray COLOR_LOST_HEART TRANSPARENT,
           Order.text (WIDTH - 11) 0 ("Score: " ++ toString s.score) COLOR_GOLD COLOR_DEEP_SPACE] ++
      if s.gameOver then
        [Order.text 22 8 "GAME OVER!" COLOR_GAMEOVER COLOR_DEEP_SPACE,
         Order.text 17 10 "Press SPACE to restart" COLOR_WHITE COLOR_DEEP_SPACE]
      else
        [Order.text 1 (HEIGHT - 1) "Avoid asteroids! [WASD] or Stick" COLOR_DIM_STAR TRANSPARENT])
  | _, _ => none

/-- `renderAll`: the per-layer order lists committed in one tick, in commit
order (far stars, near stars, game layer, UI layer).  A UI-layer `RangeError`
aborts before the UI commit, so only the first three lists are submitted. -/
def renderAllOrders (s : SpaceUserData) : List (List Order) :=
  [renderStarsOrders s.starsFar, renderStarsOrders s.starsNear, renderGameOrders s] ++
    (match renderUIOrders s with
     | some o => [o]
     | none => [])

/-- The layer commits one `updateUser` call submits: none at all on the
game-over early return, otherwise the four `renderAll` commits for the
post-tick state. -/
def updateUserOrders (g : ℕ → ℚ) (k : ℕ) (inp : Inputs) (s : SpaceUserData) :
    List (List Order) :=
  if s.gameOver then
    if inp.restartJustPressed then renderAllOrders (updateUser g k inp s)
    else []
  else renderAllOrders (updateUser g k inp s)

end SpaceDemo

-- ════════════════════════════════════════════════════════════════════════════
-- UTSPClient: the React lifecycle wrapper (src/components/utsp-client/
-- UTSPClient.tsx, reproduced in src/README.md)
-- ════════════════════════════════════════════════════════════════════════════

namespace UTSPClient

/-- The props the effect closes over (only those that feed the deps key and
the runtime configuration). -/
structure ClientProps where
  applicationName : String
  renderer : String
  width : ℤ
  height : ℤ
  autoplay : Bool
deriving DecidableEq

/-- The derived dependency key:
`` `${application.constructor.name}-${renderer}-${width}-${height}-${autoplay}` ``. -/
def depsKey (p : ClientProps) : String :=
  p.applicationName ++ "-" ++ p.renderer ++ "-" ++ toString p.width ++ "-" ++
    toString p.height ++ "-" ++ (if p.autoplay then "true" else "false")

/-- The configuration passed to `new ClientRuntime({...})`. -/
structure RuntimeConfig where
  mode : String
  applicationName : String
  renderer : String
  width : ℤ
  height : ℤ
  autoplay : Bool
deriving DecidableEq

def mkRuntimeConfig (p : ClientProps) : RuntimeConfig :=
  ⟨"standalone", p.applicationName, p.renderer, p.width, p.height, p.autoplay⟩

/-- A `ClientRuntime` instance as far as the wrapper observes it. -/
structure ClientRuntimeState where
  config : RuntimeConfig
  running : Bool
deriving DecidableEq

/-- The mutable refs of the component at the time the effect body runs:
whether `containerRef.current` is mounted, how many child nodes the container
holds, `runtimeRef` and `initializedWithKeyRef`. -/
structure EffectRefs where
  containerMounted : Bool
  containerChildCount : ℕ
  runtime : Option ClientRuntimeState
  initializedKey : Option String
deriving DecidableEq

/-- What one run of the effect body did: the resulting refs, the list of
`ClientRuntime` constructions it performed (each immediately `start()`ed),
whether it called `stop()` on a pre-existing runtime, and whether it cleared
the container's DOM. -/
structure EffectResult where
  refs : EffectRefs
  createdRuntimes : List RuntimeConfig
  stoppedExisting : Bool
  clearedContainer : Bool
deriving DecidableEq

/-- The `useEffect` body: wait for the container, skip when the stored key
equals the current deps key (Strict Mode protection), otherwise stop any
existing runtime, clear the container, record the key, and construct and
start exactly one new `ClientRuntime`. -/
def effectBody (p : ClientProps) (r : EffectRefs) : EffectResult :=
  if r.containerMounted = false then ⟨r, [], false, false⟩
  else if r.initializedKey = some (depsKey p) then ⟨r, [], false, false⟩
  else
    let stopped := r.runtime.isSome
    let r1 : EffectRefs :=
      { r with runtime := none, containerChildCount := 0,
               initializedKey := some (depsKey p) }
    let cfg := mkRuntimeConfig p
    ⟨{ r1 with runtime := some ⟨cfg, true⟩ }, [cfg], stopped, true⟩

/-- The effect's cleanup: stop and drop the runtime, reset the key. -/
def effectCleanup (r : EffectRefs) : EffectRefs :=
  { r with runtime := none, initializedKey := none }

end UTSPClient

-- ════════════════════════════════════════════════════════════════════════════
-- Shared concrete inputs for evaluated statements
-- ════════════════════════════════════════════════════════════════════════════

unseal Rat.add Rat.mul Rat.sub Rat.inv

open SpaceDemo UTSPClient

/-- The all-zero random stream (each draw is `0`, a legal `Math.random` value). -/
def zeroDraws : ℕ → ℚ := fun _ => 0

/-- A tick with centered sticks and no Restart press. -/
def noInput : Inputs := ⟨0, 0, false⟩

/-- A mid-game situation: one life left, no recovery frames, and two asteroids
that will both overlap the ship's hit box on this tick (the ship sits at
(10, 10) and both asteroids move onto column 11 of row 10). -/
def doubleHitState : SpaceUserData :=
  ⟨[], [], [⟨12, 10, "o"⟩, ⟨12, 10, "O"⟩], 10, 10, 0, 1, 0, false⟩

/-- A state about to recycle an off-screen asteroid while the score crosses a
difficulty threshold: the recycle raises the score to 3, so the target count
becomes 3 and a new asteroid is pushed. -/
def growState : SpaceUserData :=
  ⟨[], [], [⟨-3/2, 5, "o"⟩, ⟨30, 5, "o"⟩], 10, 10, 2, 3, 0, false⟩

-- ════════════════════════════════════════════════════════════════════════════
-- C1 (code_bug evidence): a second same-tick collision drives lives to -1
-- ════════════════════════════════════════════════════════════════════════════

/-- C1: "Lives never go negative" fails on the code.  From a state with one
life, no invincibility and two asteroids overlapping the ship, a single
`updateUser` tick decrements lives twice — the collision loop keeps running
after the first hit has set `lives = 0` and `gameOver`, and the damage guard
only checks `invincibilityFrames` — leaving `lives = -1`.  The subsequent
`renderUI` call then evaluates `"♥".repeat(-1)`, which throws a `RangeError`
(modelled as `none`). -/
theorem spaceDemo_double_hit_lives_negative :
    doubleHitState.lives = 1 ∧ doubleHitState.gameOver = false ∧
    (updateUser zeroDraws 0 noInput doubleHitState).lives = -1 ∧
    (updateUser zeroDraws 0 noInput doubleHitState).gameOver = true ∧
    renderUIOrders (updateUser zeroDraws 0 noInput doubleHitState) = none := by
  decide

-- ════════════════════════════════════════════════════════════════════════════
-- C4 (counterexample): the asteroid count is not fixed
-- ════════════════════════════════════════════════════════════════════════════

/-- C4 fails as stated: an `updateUser` call that recycles an off-screen
asteroid can push an extra asteroid (progressive difficulty), so the count
after the call differs from the count before it. -/
theorem spaceDemo_asteroid_count_not_fixed :
    growState.gameOver = false ∧ growState.asteroids.length = 2 ∧
    (updateUser zeroDraws 0 noInput growState).asteroids.length = 3 := by
  decide

-- ════════════════════════════════════════════════════════════════════════════
-- C8: game over freezes the state and submits nothing
-- ════════════════════════════════════════════════════════════════════════════

/-- C8: with the game over and Restart not just pressed, `updateUser` returns
early: the user state is returned unchanged in every field and no orders are
committed to any layer. -/
theorem spaceDemo_gameOver_freezes_state (g : ℕ → ℚ) (k : ℕ) (inp : Inputs)
    (s : SpaceUserData) (hgo : s.gameOver = true)
    (hr : inp.restartJustPressed = false) :
    updateUser g k inp s = s ∧ updateUserOrders g k inp s = [] := by
  simp [updateUser, updateUserOrders, hgo, hr]

/-- Witness for C8 at a concrete frozen state. -/
theorem spaceDemo_gameOver_freezes_state_witness :
    updateUser zeroDraws 0 noInput
        ⟨[], [], [⟨12, 10, "o"⟩], 10, 10, 7, 0, 0, true⟩ =
      ⟨[], [], [⟨12, 10, "o"⟩], 10, 10, 7, 0, 0, true⟩ ∧
    updateUserOrders zeroDraws 0 noInput
        ⟨[], [], [⟨12, 10, "o"⟩], 10, 10, 7, 0, 0, true⟩ = [] :=
  spaceDemo_gameOver_freezes_state zeroDraws 0 noInput _ rfl rfl

-- ════════════════════════════════════════════════════════════════════════════
-- C5 / C6: the UTSPClient effect
-- ════════════════════════════════════════════════════════════════════════════

/-- C5: when the effect body runs while the stored initialization key equals
the current derived deps key, it returns before constructing or starting a
`ClientRuntime` (refs untouched, nothing created); and re-running the effect
immediately again never constructs a second runtime for the same deps key. -/
theorem utspClient_skips_when_key_matches (p : ClientProps) (r : EffectRefs)
    (h : r.initializedKey = some (depsKey p)) :
    (effectBody p r).createdRuntimes = [] ∧ (effectBody p r).refs = r ∧
    (effectBody p (effectBody p r).refs).createdRuntimes = [] := by
  cases hm : r.containerMounted <;> simp [effectBody, hm, h]

/-- Witness for C5: a component already initialized with the key of the
default SpaceDemo props. -/
theorem utspClient_skips_when_key_matches_witness :
    (effectBody ⟨"SpaceDemo", "TerminalGL", 80, 24, true⟩
        ⟨true, 1, some ⟨mkRuntimeConfig ⟨"SpaceDemo", "TerminalGL", 80, 24, true⟩, true⟩,
         some (depsKey ⟨"SpaceDemo", "TerminalGL", 80, 24, true⟩)⟩).createdRuntimes = [] ∧
    (effectBody ⟨"SpaceDemo", "TerminalGL", 80, 24, true⟩
        ⟨true, 1, some ⟨mkRuntimeConfig ⟨"SpaceDemo", "TerminalGL", 80, 24, true⟩, true⟩,
         some (depsKey ⟨"SpaceDemo", "TerminalGL", 80, 24, true⟩)⟩).refs =
      ⟨true, 1, some ⟨mkRuntimeConfig ⟨"SpaceDemo", "TerminalGL", 80, 24, true⟩, true⟩,
       some (depsKey ⟨"SpaceDemo", "TerminalGL", 80, 24, true⟩)⟩ ∧
    (effectBody ⟨"SpaceDemo", "TerminalGL", 80, 24, true⟩
        (effectBody ⟨"SpaceDemo", "TerminalGL", 80, 24, true⟩
          ⟨true, 1, some ⟨mkRuntimeConfig ⟨"SpaceDemo", "TerminalGL", 80, 24, true⟩, true⟩,
           some (depsKey ⟨"SpaceDemo", "TerminalGL", 80, 24, true⟩)⟩).refs).createdRuntimes = [] :=
  utspClient_skips_when_key_matches _ _ rfl

/-- C6: when the effect body runs with the container mounted and a deps key
different from the stored one, it stops any existing runtime, clears the
container DOM, records the new key, and constructs and starts exactly one new
`ClientRuntime` configured from the current props (standalone mode with the
given application, renderer, width, height and autoplay). -/
theorem utspClient_reinitializes_on_key_change (p : ClientProps) (r : EffectRefs)
    (hm : r.containerMounted = true)
    (hk : ¬ r.initializedKey = some (depsKey p)) :
    (effectBody p r).stoppedExisting = r.runtime.isSome ∧
    (effectBody p r).clearedContainer = true ∧
    (effectBody p r).refs.containerChildCount = 0 ∧
    (effectBody p r).refs.initializedKey = some (depsKey p) ∧
    (effectBody p r).createdRuntimes = [mkRuntimeConfig p] ∧
    (effectBody p r).refs.runtime = some ⟨mkRuntimeConfig p, true⟩ ∧
    mkRuntimeConfig p =
      ⟨"standalone", p.applicationName, p.renderer, p.width, p.height, p.autoplay⟩ := by
  simp [effectBody, hm, hk, mkRuntimeConfig]

/-- Witness for C6: a mounted container holding a stale runtime initialized
under a different key. -/
theorem utspClient_reinitializes_on_key_change_witness :
    (effectBody ⟨"SpaceDemo", "TerminalGL", 120, 40, true⟩
        ⟨true, 1, some ⟨mkRuntimeConfig ⟨"SpaceDemo", "TerminalGL", 80, 24, true⟩, true⟩,
         some (depsKey ⟨"SpaceDemo", "TerminalGL", 80, 24, true⟩)⟩).stoppedExisting =
      (some (⟨mkRuntimeConfig ⟨"SpaceDemo", "TerminalGL", 80, 24, true⟩, true⟩ :
        ClientRuntimeState)).isSome ∧
    (effectBody ⟨"SpaceDemo", "TerminalGL", 120, 40, true⟩
        ⟨true, 1, some ⟨mkRuntimeConfig ⟨"SpaceDemo", "TerminalGL", 80, 24, true⟩, true⟩,
         some (depsKey ⟨"SpaceDemo", "TerminalGL", 80, 24, true⟩)⟩).clearedContainer = true ∧
    (effectBody ⟨"SpaceDemo", "TerminalGL", 120, 40, true⟩
        ⟨true, 1, some ⟨mkRuntimeConfig ⟨"SpaceDemo", "TerminalGL", 80, 24, true⟩, true⟩,
         some (depsKey ⟨"SpaceDemo", "TerminalGL", 80, 24, true⟩)⟩).refs.containerChildCount = 0 ∧
    (effectBody ⟨"SpaceDemo", "TerminalGL", 120, 40, true⟩
        ⟨true, 1, some ⟨mkRuntimeConfig ⟨"SpaceDemo", "TerminalGL", 80, 24, true⟩, true⟩,
         some (depsKey ⟨"SpaceDemo", "TerminalGL", 80, 24, true⟩)⟩).refs.initializedKey =
      some (depsKey ⟨"SpaceDemo", "TerminalGL", 120, 40, true⟩) ∧
    (effectBody ⟨"SpaceDemo", "TerminalGL", 120, 40, true⟩
        ⟨true, 1, some ⟨mkRuntimeConfig ⟨"SpaceDemo", "TerminalGL", 80, 24, true⟩, true⟩,
         some (depsKey ⟨"SpaceDemo", "TerminalGL", 80, 24, true⟩)⟩).createdRuntimes =
      [mkRuntimeConfig ⟨"SpaceDemo", "TerminalGL", 120, 40, true⟩] ∧
    (effectBody ⟨"SpaceDemo", "TerminalGL", 120, 40, true⟩
        ⟨true, 1, some ⟨mkRuntimeConfig ⟨"SpaceDemo", "TerminalGL", 80, 24, true⟩, true⟩,
         some (depsKey ⟨"SpaceDemo", "TerminalGL", 80, 24, true⟩)⟩).refs.runtime =
      some ⟨mkRuntimeConfig ⟨"SpaceDemo", "TerminalGL", 120, 40, true⟩, true⟩ ∧
    mkRuntimeConfig ⟨"SpaceDemo", "TerminalGL", 120, 40, true⟩ =
      ⟨"standalone", "SpaceDemo", "TerminalGL", 120, 40, true⟩ :=
  utspClient_reinitializes_on_key_change _ _ rfl (by decide)

-- ════════════════════════════════════════════════════════════════════════════
-- C10: renderUI is safe when 0 ≤ lives ≤ 3
-- ════════════════════════════════════════════════════════════════════════════

theorem repeatStr_length (str : String) (n : ℕ) :
    (repeatStr str n).length = n * str.length := by
  induction n with
  | zero => simp [repeatStr]
  | succ m ih => simp [repeatStr, ih, Nat.succ_mul, Nat.add_comm]

/-- C10: under `0 ≤ lives ≤ 3` both heart `repeat` counts are non-negative, so
neither `"♥".repeat` call can throw, `renderUI` produces its order list, and
the red hearts and gray hearts always total exactly 3 characters. -/
theorem spaceDemo_renderUI_hearts_safe (s : SpaceUserData)
    (h0 : 0 ≤ s.lives) (h3 : s.lives ≤ 3) :
    jsRepeat heart s.lives = some (repeatStr heart s.lives.toNat) ∧
    jsRepeat heart (3 - s.lives) = some (repeatStr heart (3 - s.lives).toNat) ∧
    (renderUIOrders s).isSome = true ∧
    (repeatStr heart s.lives.toNat).length +
      (repeatStr heart (3 - s.lives).toNat).length = 3 := by
  have hred : jsRepeat heart s.lives = some (repeatStr heart s.lives.toNat) := by
    simp only [jsRepeat, if_neg (not_lt.mpr h0)]
  have hgray : jsRepeat heart (3 - s.lives) = some (repeatStr heart (3 - s.lives).toNat) := by
    simp only [jsRepeat, if_neg (not_lt.mpr (by omega : (0 : ℤ) ≤ 3 - s.lives))]
  refine ⟨hred, hgray, ?_, ?_⟩
  · simp only [renderUIOrders, hred, hgray, Option.isSome_some]
  · have h1 : heart.length = 1 := rfl
    rw [repeatStr_length, repeatStr_length, h1]
    omega

/-- Witness for C10 at a state with two lives left. -/
theorem spaceDemo_renderUI_hearts_safe_witness :
    jsRepeat heart (⟨[], [], [], 10, 10, 5, 2, 0, false⟩ : SpaceUserData).lives =
      some (repeatStr heart
        (⟨[], [], [], 10, 10, 5, 2, 0, false⟩ : SpaceUserData).lives.toNat) ∧
    jsRepeat heart (3 - (⟨[], [], [], 10, 10, 5, 2, 0, false⟩ : SpaceUserData).lives) =
      some (repeatStr heart
        (3 - (⟨[], [], [], 10, 10, 5, 2, 0, false⟩ : SpaceUserData).lives).toNat) ∧
    (renderUIOrders (⟨[], [], [], 10, 10, 5, 2, 0, false⟩ : SpaceUserData)).isSome = true ∧
    (repeatStr heart
        (⟨[], [], [], 10, 10, 5, 2, 0, false⟩ : SpaceUserData).lives.toNat).length +
      (repeatStr heart
        (3 - (⟨[], [], [], 10, 10, 5, 2, 0, false⟩ : SpaceUserData).lives).toNat).length = 3 :=
  spaceDemo_renderUI_hearts_safe _ (by decide) (by decide)

-- ════════════════════════════════════════════════════════════════════════════
-- C2: the ship position stays inside the clamped bounds
-- ════════════════════════════════════════════════════════════════════════════

theorem tickBody_ship_bounds (g : ℕ → ℚ) (k : ℕ) (inp : Inputs) (s : SpaceUserData) :
    1 ≤ (tickBody g k inp s).shipX ∧ (tickBody g k inp s).shipX ≤ 15 ∧
    2 ≤ (tickBody g k inp s).shipY ∧ (tickBody g k inp s).shipY ≤ 17 := by
  have hx : (tickBody g k inp s).shipX =
      max 1 (min 15 (s.shipX + inp.moveX * SPEED_SHIP)) := rfl
  have hy : (tickBody g k inp s).shipY =
      max 2 (min (HEIGHT - 3) (s.shipY + inp.moveY * SPEED_SHIP)) := rfl
  rw [hx, hy]
  refine ⟨le_max_left _ _, max_le (by norm_num) (min_le_left _ _),
    le_max_left _ _, max_le (by norm_num)
      ((min_le_left _ _).trans (le_of_eq (by norm_num [HEIGHT])))⟩

/-- C2: for every state reachable from `initUser` by any sequence of
`updateUser` calls (any inputs, any random draws), the ship position satisfies
`1 ≤ shipX ≤ 15` and `2 ≤ shipY ≤ HEIGHT - 3 = 17` after each call. -/
theorem spaceDemo_ship_position_clamped (s : SpaceUserData) (h : Reachable s) :
    1 ≤ s.shipX ∧ s.shipX ≤ 15 ∧ 2 ≤ s.shipY ∧ s.shipY ≤ 17 := by
  induction h with
  | init g k =>
    refine ⟨?_, ?_, ?_, ?_⟩ <;> norm_num [initUserState, HEIGHT]
  | step g k inp s hs ih =>
    unfold updateUser
    cases hgo : s.gameOver with
    | false => simpa using tickBody_ship_bounds g k inp s
    | true =>
      cases hr : inp.restartJustPressed with
      | false => simpa using ih
      | true => simpa using tickBody_ship_bounds g (resetGame g k s).2 inp (resetGame g k s).1

/-- Witness for C2: the freshly initialized user (all-zero draws). -/
theorem spaceDemo_ship_position_clamped_witness :
    1 ≤ (initUserState zeroDraws 0).shipX ∧ (initUserState zeroDraws 0).shipX ≤ 15 ∧
    2 ≤ (initUserState zeroDraws 0).shipY ∧ (initUserState zeroDraws 0).shipY ≤ 17 :=
  spaceDemo_ship_position_clamped _ (Reachable.init zeroDraws 0)

-- ════════════════════════════════════════════════════════════════════════════
-- Loop lemmas: field preservation under invincibility (for C9)
-- ════════════════════════════════════════════════════════════════════════════

theorem offscreenCheck_preserves (g : ℕ → ℚ) (i : ℕ) (st : LoopState) :
    (offscreenCheck g i st).lives = st.lives ∧
    (offscreenCheck g i st).gameOver = st.gameOver ∧
    (offscreenCheck g i st).invincibilityFrames = st.invincibilityFrames := by
  simp only [offscreenCheck]
  split
  · split <;> exact ⟨rfl, rfl, rfl⟩
  · exact ⟨rfl, rfl, rfl⟩

theorem processAsteroid_inv_pos (g : ℕ → ℚ) (gx gy : ℤ) (i : ℕ) (st : LoopState)
    (h : 0 < st.invincibilityFrames) :
    (processAsteroid g gx gy i st).lives = st.lives ∧
    (processAsteroid g gx gy i st).gameOver = st.gameOver ∧
    (processAsteroid g gx gy i st).invincibilityFrames = st.invincibilityFrames := by
  simp only [processAsteroid]
  split
  · next hc => exact absurd hc.2 (not_le.mpr h)
  · exact offscreenCheck_preserves g i _

theorem asteroidLoop_inv_pos (g : ℕ → ℚ) (gx gy : ℤ) :
    ∀ (fuel i : ℕ) (st : LoopState), 0 < st.invincibilityFrames →
      (asteroidLoop g gx gy fuel i st).lives = st.lives ∧
      (asteroidLoop g gx gy fuel i st).gameOver = st.gameOver ∧
      (asteroidLoop g gx gy fuel i st).invincibilityFrames = st.invincibilityFrames
  | 0, _, _, _ => ⟨rfl, rfl, rfl⟩
  | fuel + 1, i, st, h => by
    simp only [asteroidLoop]
    split
    · have hp := processAsteroid_inv_pos g gx gy i st h
      have ih := asteroidLoop_inv_pos g gx gy fuel (i + 1)
        (processAsteroid g gx gy i st) (hp.2.2 ▸ h)
      exact ⟨ih.1.trans hp.1, ih.2.1.trans hp.2.1, ih.2.2.trans hp.2.2⟩
    · exact ⟨rfl, rfl, rfl⟩

-- ════════════════════════════════════════════════════════════════════════════
-- C9: the recovery period blocks all damage
-- ════════════════════════════════════════════════════════════════════════════

/-- C9: in an `updateUser` tick with the game running, if the recovery timer
is still positive once the top-of-tick decrement has been applied (i.e. when
collision processing begins), then no collision in that tick decrements
`lives` or sets `gameOver`. -/
theorem spaceDemo_invincibility_blocks_damage (g : ℕ → ℚ) (k : ℕ) (inp : Inputs)
    (s : SpaceUserData) (hgo : s.gameOver = false)
    (h : 0 < (if s.invincibilityFrames > 0 then s.invincibilityFrames - 1
              else s.invincibilityFrames)) :
    (updateUser g k inp s).lives = s.lives ∧
    (updateUser g k inp s).gameOver = false := by
  have hu : updateUser g k inp s = tickBody g k inp s := by simp [updateUser, hgo]
  have hl := asteroidLoop_inv_pos g
      ⌊max 1 (min 15 (s.shipX + inp.moveX * SPEED_SHIP))⌋
      ⌊max 2 (min (HEIGHT - 3) (s.shipY + inp.moveY * SPEED_SHIP))⌋
      (s.asteroids.length + ASTEROIDS_MAX) 0
      ⟨s.asteroids, s.score, s.lives,
        (if s.invincibilityFrames > 0 then s.invincibilityFrames - 1
         else s.invincibilityFrames), s.gameOver,
        (scrollStars g (scrollStars g k SPEED_STARS_FAR s.starsFar).2
          SPEED_STARS_NEAR s.starsNear).2⟩ h
  rw [hu]
  exact ⟨hl.1, hl.2.1.trans hgo⟩

/-- Witness for C9: a state five recovery frames into its invincibility with
an asteroid about to overlap the ship. -/
theorem spaceDemo_invincibility_blocks_damage_witness :
    (updateUser zeroDraws 0 noInput
        (⟨[], [], [⟨12, 10, "o"⟩], 10, 10, 0, 2, 5, false⟩ : SpaceUserData)).lives =
      (⟨[], [], [⟨12, 10, "o"⟩], 10, 10, 0, 2, 5, false⟩ : SpaceUserData).lives ∧
    (updateUser zeroDraws 0 noInput
        (⟨[], [], [⟨12, 10, "o"⟩], 10, 10, 0, 2, 5, false⟩ : SpaceUserData)).gameOver = false :=
  spaceDemo_invincibility_blocks_damage zeroDraws 0 noInput _ rfl (by decide)

-- ════════════════════════════════════════════════════════════════════════════
-- Loop lemmas: asteroid-count bounds (for C4)
-- ════════════════════════════════════════════════════════════════════════════

theorem offscreenCheck_length (g : ℕ → ℚ) (i : ℕ) (st : LoopState) :
    st.asteroids.length ≤ (offscreenCheck g i st).asteroids.length ∧
    (offscreenCheck g i st).asteroids.length ≤ max st.asteroids.length ASTEROIDS_MAX := by
  simp only [offscreenCheck]
  split
  · split
    · next hpush =>
      have hlt : ((st.asteroids.set i (createAsteroid g st.k st.score).1).length : ℤ) <
          (ASTEROIDS_MAX : ℤ) :=
        lt_of_lt_of_le hpush (min_le_left _ _)
      rw [List.length_set] at hlt
      have h10 : st.asteroids.length < ASTEROIDS_MAX := by exact_mod_cast hlt
      simp only [List.length_append, List.length_set, List.length_singleton]
      omega
    · simp [List.length_set, le_max_left]
  · exact ⟨le_refl _, le_max_left _ _⟩

theorem processAsteroid_length (g : ℕ → ℚ) (gx gy : ℤ) (i : ℕ) (st : LoopState) :
    st.asteroids.length ≤ (processAsteroid g gx gy i st).asteroids.length ∧
    (processAsteroid g gx gy i st).asteroids.length ≤
      max st.asteroids.length ASTEROIDS_MAX := by
  have key : ∀ st' : LoopState, st'.asteroids.length = st.asteroids.length →
      st.asteroids.length ≤ (offscreenCheck g i st').asteroids.length ∧
      (offscreenCheck g i st').asteroids.length ≤
        max st.asteroids.length ASTEROIDS_MAX := by
    intro st' hlen
    have h := offscreenCheck_length g i st'
    rw [hlen] at h
    exact h
  simp only [processAsteroid]
  split
  · split
    · exact key _ (List.length_set ..)
    · simp only [List.length_set]
      exact ⟨le_refl _, le_max_left _ _⟩
  · exact key _ (List.length_set ..)

theorem asteroidLoop_length (g : ℕ → ℚ) (gx gy : ℤ) :
    ∀ (fuel i : ℕ) (st : LoopState),
      st.asteroids.length ≤ (asteroidLoop g gx gy fuel i st).asteroids.length ∧
      (asteroidLoop g gx gy fuel i st).asteroids.length ≤
        max st.asteroids.length ASTEROIDS_MAX
  | 0, _, st => ⟨le_refl _, le_max_left _ _⟩
  | fuel + 1, i, st => by
    simp only [asteroidLoop]
    split
    · have hp := processAsteroid_length g gx gy i st
      have ih := asteroidLoop_length g gx gy fuel (i + 1) (processAsteroid g gx gy i st)
      exact ⟨hp.1.trans ih.1, ih.2.trans (max_le hp.2 (le_max_right _ _))⟩
    · exact ⟨le_refl _, le_max_left _ _⟩

theorem tickBody_asteroids_length (g : ℕ → ℚ) (k : ℕ) (inp : Inputs) (s : SpaceUserData) :
    s.asteroids.length ≤ (tickBody g k inp s).asteroids.length ∧
    (tickBody g k inp s).asteroids.length ≤ max s.asteroids.length ASTEROIDS_MAX :=
  asteroidLoop_length g
    ⌊max 1 (min 15 (s.shipX + inp.moveX * SPEED_SHIP))⌋
    ⌊max 2 (min (HEIGHT - 3) (s.shipY + inp.moveY * SPEED_SHIP))⌋
    (s.asteroids.length + ASTEROIDS_MAX) 0
    ⟨s.asteroids, s.score, s.lives,
      (if s.invincibilityFrames > 0 then s.invincibilityFrames - 1
       else s.invincibilityFrames), s.gameOver,
      (scrollStars g (scrollStars g k SPEED_STARS_FAR s.starsFar).2
        SPEED_STARS_NEAR s.starsNear).2⟩

-- ════════════════════════════════════════════════════════════════════════════
-- C4 (amended): how the asteroid count actually behaves
-- ════════════════════════════════════════════════════════════════════════════

/-- C4 (amended): in every `updateUser` call that is not a restart tick, the
number of asteroids never decreases, and never exceeds the larger of its
previous value and `ASTEROIDS_MAX = 10` (growth happens one push at a time
while the array is below the difficulty target). -/
theorem spaceDemo_asteroid_count_bounds (g : ℕ → ℚ) (k : ℕ) (inp : Inputs)
    (s : SpaceUserData) (h : ¬(s.gameOver = true ∧ inp.restartJustPressed = true)) :
    s.asteroids.length ≤ (updateUser g k inp s).asteroids.length ∧
    (updateUser g k inp s).asteroids.length ≤ max s.asteroids.length ASTEROIDS_MAX := by
  cases hgo : s.gameOver with
  | false =>
    have hu : updateUser g k inp s = tickBody g k inp s := by simp [updateUser, hgo]
    rw [hu]
    exact tickBody_asteroids_length g k inp s
  | true =>
    cases hr : inp.restartJustPressed with
    | false =>
      have hu : updateUser g k inp s = s := by simp [updateUser, hgo, hr]
      rw [hu]
      exact ⟨le_refl _, le_max_left _ _⟩
    | true => exact absurd ⟨hgo, hr⟩ h

/-- Witness for C4's amended statement at the growth input of the
counterexample. -/
theorem spaceDemo_asteroid_count_bounds_witness :
    growState.asteroids.length ≤
      (updateUser zeroDraws 0 noInput growState).asteroids.length ∧
    (updateUser zeroDraws 0 noInput growState).asteroids.length ≤
      max growState.asteroids.length ASTEROIDS_MAX :=
  spaceDemo_asteroid_count_bounds zeroDraws 0 noInput growState (by decide)

-- ════════════════════════════════════════════════════════════════════════════
-- C7: Restart resets the game state, then the tick proceeds normally
-- ════════════════════════════════════════════════════════════════════════════

/-- A tick on which the Restart button was just pressed. -/
def restartInput : Inputs := ⟨0, 0, true⟩

/-- C7: with the game over and Restart just pressed, `updateUser` first resets
the state — ship back to (10, HEIGHT/2 = 10), score 0, lives 3, no recovery
frames, `gameOver` cleared, and the asteroid array truncated to
`ASTEROIDS_START = 2` freshly created asteroids — and then processes and
renders that same tick normally (the call equals the normal tick body applied
to the reset state, and the four layer commits are produced). -/
theorem spaceDemo_restart_resets_state (g : ℕ → ℚ) (k : ℕ) (inp : Inputs)
    (s : SpaceUserData) (hgo : s.gameOver = true) (hr : inp.restartJustPressed = true)
    (hlen : ASTEROIDS_START ≤ s.asteroids.length) :
    updateUser g k inp s = tickBody g (resetGame g k s).2 inp (resetGame g k s).1 ∧
    updateUserOrders g k inp s = renderAllOrders (updateUser g k inp s) ∧
    (resetGame g k s).1.shipX = 10 ∧
    (resetGame g k s).1.shipY = 10 ∧
    (resetGame g k s).1.score = 0 ∧
    (resetGame g k s).1.lives = 3 ∧
    (resetGame g k s).1.invincibilityFrames = 0 ∧
    (resetGame g k s).1.gameOver = false ∧
    (resetGame g k s).1.asteroids =
      [(createAsteroid g k 0).1, (createAsteroid g (createAsteroid g k 0).2 0).1] := by
  obtain ⟨a, b, t, hab⟩ : ∃ a b t, s.asteroids = a :: b :: t := by
    cases hl : s.asteroids with
    | nil => rw [hl] at hlen; simp [ASTEROIDS_START] at hlen
    | cons a rest =>
      cases rest with
      | nil => rw [hl] at hlen; simp [ASTEROIDS_START] at hlen
      | cons b t => exact ⟨a, b, t, rfl⟩
  refine ⟨by simp [updateUser, hgo, hr], by simp [updateUserOrders, updateUser, hgo, hr],
    rfl, by norm_num [resetGame, HEIGHT], rfl, rfl, rfl, rfl, ?_⟩
  show (freshenAsteroids g k (s.asteroids.take ASTEROIDS_START)).1 = _
  rw [hab]
  rfl

/-- Witness for C7: a concrete game-over state with two stale asteroids. -/
theorem spaceDemo_restart_resets_state_witness :
    updateUser zeroDraws 0 restartInput
        (⟨[], [], [⟨5, 5, "o"⟩, ⟨6, 6, "O"⟩], 3, 4, 9, 0, 7, true⟩ : SpaceUserData) =
      tickBody zeroDraws
        (resetGame zeroDraws 0
          (⟨[], [], [⟨5, 5, "o"⟩, ⟨6, 6, "O"⟩], 3, 4, 9, 0, 7, true⟩ : SpaceUserData)).2
        restartInput
        (resetGame zeroDraws 0
          (⟨[], [], [⟨5, 5, "o"⟩, ⟨6, 6, "O"⟩], 3, 4, 9, 0, 7, true⟩ : SpaceUserData)).1 ∧
    updateUserOrders zeroDraws 0 restartInput
        (⟨[], [], [⟨5, 5, "o"⟩, ⟨6, 6, "O"⟩], 3, 4, 9, 0, 7, true⟩ : SpaceUserData) =
      renderAllOrders (updateUser zeroDraws 0 restartInput
        (⟨[], [], [⟨5, 5, "o"⟩, ⟨6, 6, "O"⟩], 3, 4, 9, 0, 7, true⟩ : SpaceUserData)) ∧
    (resetGame zeroDraws 0
        (⟨[], [], [⟨5, 5, "o"⟩, ⟨6, 6, "O"⟩], 3, 4, 9, 0, 7, true⟩ : SpaceUserData)).1.shipX = 10 ∧
    (resetGame zeroDraws 0
        (⟨[], [], [⟨5, 5, "o"⟩, ⟨6, 6, "O"⟩], 3, 4, 9, 0, 7, true⟩ : SpaceUserData)).1.shipY = 10 ∧
    (resetGame zeroDraws 0
        (⟨[], [], [⟨5, 5, "o"⟩, ⟨6, 6, "O"⟩], 3, 4, 9, 0, 7, true⟩ : SpaceUserData)).1.score = 0 ∧
    (resetGame zeroDraws 0
        (⟨[], [], [⟨5, 5, "o"⟩, ⟨6, 6, "O"⟩], 3, 4, 9, 0, 7, true⟩ : SpaceUserData)).1.lives = 3 ∧
    (resetGame zeroDraws 0
        (⟨[], [], [⟨5, 5, "o"⟩, ⟨6, 6, "O"⟩],
          3, 4, 9, 0, 7, true⟩ : SpaceUserData)).1.invincibilityFrames = 0 ∧
    (resetGame zeroDraws 0
        (⟨[], [], [⟨5, 5, "o"⟩, ⟨6, 6, "O"⟩],
          3, 4, 9, 0, 7, true⟩ : SpaceUserData)).1.gameOver = false ∧
    (resetGame zeroDraws 0
        (⟨[], [], [⟨5, 5, "o"⟩, ⟨6, 6, "O"⟩],
          3, 4, 9, 0, 7, true⟩ : SpaceUserData)).1.asteroids =
      [(createAsteroid zeroDraws 0 0).1,
       (createAsteroid zeroDraws (createAsteroid zeroDraws 0 0).2 0).1] :=
  spaceDemo_restart_resets_state zeroDraws 0 restartInput _ rfl rfl (by decide)

-- ════════════════════════════════════════════════════════════════════════════
-- Loop lemmas: off-screen recycling (for C3)
-- ════════════════════════════════════════════════════════════════════════════

/-- Any asteroid `createAsteroid` produces spawns off-screen right
(`x ≥ WIDTH`) with `y` inside the playable band `[2, HEIGHT - 3]`, for any
legal random draws. -/
theorem createAsteroid_fresh_bounds (g : ℕ → ℚ) (k : ℕ) (score : ℤ)
    (hg : ∀ n, 0 ≤ g n ∧ g n < 1) :
    WIDTH ≤ (createAsteroid g k score).1.x ∧
    2 ≤ (createAsteroid g k score).1.y ∧
    (createAsteroid g k score).1.y ≤ HEIGHT - 3 := by
  obtain ⟨h1a, h1b⟩ := hg (k + 1)
  obtain ⟨h2a, h2b⟩ := hg (k + 2)
  obtain ⟨h3a, h3b⟩ := hg (k + 3)
  obtain ⟨h4a, h4b⟩ := hg (k + 4)
  simp only [createAsteroid, WIDTH, HEIGHT]
  split
  · split
    · split
      all_goals refine ⟨?_, ?_, ?_⟩ <;> dsimp only <;> nlinarith
    · refine ⟨?_, ?_, ?_⟩ <;> dsimp only <;> nlinarith
  · refine ⟨?_, ?_, ?_⟩ <;> dsimp only <;> nlinarith

/-- A freshly created asteroid is not off-screen on the next move. -/
theorem createAsteroid_not_offscreen (g : ℕ → ℚ) (k : ℕ) (score : ℤ)
    (hg : ∀ n, 0 ≤ g n ∧ g n < 1) :
    decide ((createAsteroid g k score).1.x - SPEED_ASTEROID < -2) = false := by
  have hx := (createAsteroid_fresh_bounds g k score hg).1
  simp only [decide_eq_false_iff_not, not_lt, SPEED_ASTEROID]
  rw [WIDTH] at hx
  linarith

/-- A rational whose floor is at least 1 is not below -2. -/
theorem floor_ge_one_not_lt_neg_two {q : ℚ} (h : 1 ≤ ⌊q⌋) : ¬(q < -2) := by
  have h1 : (1 : ℚ) ≤ q := by exact_mod_cast Int.le_floor.mp h
  linarith

/-- The loop body only writes the current index (and appends): every other
existing index is untouched. -/
theorem processAsteroid_getElem?_ne (g : ℕ → ℚ) (gx gy : ℤ) (i : ℕ) (st : LoopState)
    (j : ℕ) (hne : j ≠ i) (hj : j < st.asteroids.length) :
    (processAsteroid g gx gy i st).asteroids[j]? = st.asteroids[j]? := by
  simp only [processAsteroid, offscreenCheck]
  split
  · split
    · split
      · split
        · rw [List.getElem?_append_left (by simpa [List.length_set] using hj),
              List.getElem?_set_ne (Ne.symm hne), List.getElem?_set_ne (Ne.symm hne)]
        · rw [List.getElem?_set_ne (Ne.symm hne), List.getElem?_set_ne (Ne.symm hne)]
      · rw [List.getElem?_set_ne (Ne.symm hne)]
    · rw [List.getElem?_set_ne (Ne.symm hne), List.getElem?_set_ne (Ne.symm hne)]
  · split
    · split
      · rw [List.getElem?_append_left (by simpa [List.length_set] using hj),
            List.getElem?_set_ne (Ne.symm hne), List.getElem?_set_ne (Ne.symm hne)]
      · rw [List.getElem?_set_ne (Ne.symm hne), List.getElem?_set_ne (Ne.symm hne)]
    · rw [List.getElem?_set_ne (Ne.symm hne)]

theorem asteroidLoop_getElem?_lt (g : ℕ → ℚ) (gx gy : ℤ) :
    ∀ (fuel i : ℕ) (st : LoopState) (j : ℕ), j < i → j < st.asteroids.length →
      (asteroidLoop g gx gy fuel i st).asteroids[j]? = st.asteroids[j]?
  | 0, _, _, _, _, _ => rfl
  | fuel + 1, i, st, j, hji, hjl => by
    simp only [asteroidLoop]
    split
    · rw [asteroidLoop_getElem?_lt g gx gy fuel (i + 1) _ j (Nat.lt_succ_of_lt hji)
        (lt_of_lt_of_le hjl (processAsteroid_length g gx gy i st).1)]
      exact processAsteroid_getElem?_ne g gx gy i st j (Nat.ne_of_lt hji) hjl
    · rfl

/-- With the ship grid column at least 1, an off-screen asteroid cannot be a
hit, so the loop body recycles it in place (fresh asteroid, score + 1). -/
theorem processAsteroid_offscreen_elem (g : ℕ → ℚ) (gx gy : ℤ) (i : ℕ) (st : LoopState)
    (hgx : 1 ≤ gx) (hi : i < st.asteroids.length)
    (hoff : (st.asteroids.getD i default).x - SPEED_ASTEROID < -2) :
    (processAsteroid g gx gy i st).asteroids[i]? =
      some (createAsteroid g st.k st.score).1 ∧
    (processAsteroid g gx gy i st).score = st.score + 1 := by
  simp only [processAsteroid, offscreenCheck]
  split
  · next h =>
    exfalso
    have hfl : 1 ≤ ⌊(st.asteroids.getD i default).x - SPEED_ASTEROID⌋ := by
      rcases h.1 with ⟨_, hb, _⟩ | ⟨_, hw⟩
      · omega
      · omega
    exact floor_ge_one_not_lt_neg_two hfl hoff
  · split
    · split
      · constructor
        · rw [List.getElem?_append_left (by simpa [List.length_set] using hi),
              List.getElem?_set_self (by simpa [List.length_set] using hi)]
        · rfl
      · constructor
        · rw [List.getElem?_set_self (by simpa [List.length_set] using hi)]
        · rfl
    · next hcond =>
      exfalso
      exact hcond (by simpa [List.getElem?_set_self hi] using hoff)

/-- When the current asteroid is not off-screen, the loop body leaves the
score unchanged. -/
theorem processAsteroid_score_not_offscreen (g : ℕ → ℚ) (gx gy : ℤ) (i : ℕ)
    (st : LoopState) (hi : i < st.asteroids.length)
    (hnoff : ¬((st.asteroids.getD i default).x - SPEED_ASTEROID < -2)) :
    (processAsteroid g gx gy i st).score = st.score := by
  simp only [processAsteroid, offscreenCheck]
  split
  · split
    · split
      · next hcond =>
        exact absurd (by simpa [List.getElem?_set_self hi] using hcond) hnoff
      · rfl
    · rfl
  · split
    · next hcond =>
      exact absurd (by simpa [List.getElem?_set_self hi] using hcond) hnoff
    · rfl

/-- Indices after the current one keep their off-screen count: the loop body
may only append fresh asteroids there, and a fresh asteroid is never
off-screen. -/
theorem processAsteroid_drop_countP (g : ℕ → ℚ) (gx gy : ℤ) (i : ℕ) (st : LoopState)
    (hg : ∀ n, 0 ≤ g n ∧ g n < 1) (hi : i < st.asteroids.length) :
    ((processAsteroid g gx gy i st).asteroids.drop (i + 1)).countP
        (fun a => decide (a.x - SPEED_ASTEROID < -2)) =
      (st.asteroids.drop (i + 1)).countP (fun a => decide (a.x - SPEED_ASTEROID < -2)) := by
  simp only [processAsteroid, offscreenCheck]
  split
  · split
    · split
      · split
        · rw [List.drop_append_of_le_length (by simp only [List.length_set]; omega),
              List.drop_set_of_lt _ _ (Nat.lt_succ_self i),
              List.drop_set_of_lt _ _ (Nat.lt_succ_self i), List.countP_append]
          simp [createAsteroid_not_offscreen _ _ _ hg]
        · rw [List.drop_set_of_lt _ _ (Nat.lt_succ_self i),
              List.drop_set_of_lt _ _ (Nat.lt_succ_self i)]
      · rw [List.drop_set_of_lt _ _ (Nat.lt_succ_self i)]
    · rw [List.drop_set_of_lt _ _ (Nat.lt_succ_self i),
          List.drop_set_of_lt _ _ (Nat.lt_succ_self i)]
  · split
    · split
      · rw [List.drop_append_of_le_length (by simp only [List.length_set]; omega),
            List.drop_set_of_lt _ _ (Nat.lt_succ_self i),
            List.drop_set_of_lt _ _ (Nat.lt_succ_self i), List.countP_append]
        simp [createAsteroid_not_offscreen _ _ _ hg]
      · rw [List.drop_set_of_lt _ _ (Nat.lt_succ_self i),
            List.drop_set_of_lt _ _ (Nat.lt_succ_self i)]
    · rw [List.drop_set_of_lt _ _ (Nat.lt_succ_self i)]

/-- The main loop invariant for C3: processing from index `i` with a
sufficient iteration budget, the loop adds exactly one point per off-screen
asteroid among the indices not yet processed, and each such asteroid ends up
replaced in place by a fresh one inside the spawn box. -/
theorem asteroidLoop_offscreen_main (g : ℕ → ℚ) (gx gy : ℤ)
    (hg : ∀ n, 0 ≤ g n ∧ g n < 1) (hgx : 1 ≤ gx) :
    ∀ (fuel i : ℕ) (st : LoopState),
      st.asteroids.length ≤ i + fuel → ASTEROIDS_MAX ≤ i + fuel →
      ((asteroidLoop g gx gy fuel i st).score =
          st.score + ((st.asteroids.drop i).countP
            (fun a => decide (a.x - SPEED_ASTEROID < -2)) : ℤ) ∧
        ∀ j, i ≤ j → j < st.asteroids.length →
          (st.asteroids.getD j default).x - SPEED_ASTEROID < -2 →
          WIDTH ≤ ((asteroidLoop g gx gy fuel i st).asteroids.getD j default).x ∧
          2 ≤ ((asteroidLoop g gx gy fuel i st).asteroids.getD j default).y ∧
          ((asteroidLoop g gx gy fuel i st).asteroids.getD j default).y ≤ HEIGHT - 3)
  | 0, i, st, hlen, _ => by
    constructor
    · rw [List.drop_eq_nil_of_le (by omega), List.countP_nil]
      simp [asteroidLoop]
    · intro j hij hjl _
      exact absurd hjl (by omega)
  | fuel + 1, i, st, hlen, hmax => by
    simp only [asteroidLoop]
    split
    · next hilen =>
      have hlen' : (processAsteroid g gx gy i st).asteroids.length ≤ (i + 1) + fuel := by
        have h1 := (processAsteroid_length g gx gy i st).2
        have h2 : max st.asteroids.length ASTEROIDS_MAX ≤ i + (fuel + 1) := max_le hlen hmax
        have h3 := h1.trans h2
        omega
      have hmax' : ASTEROIDS_MAX ≤ (i + 1) + fuel := by omega
      obtain ⟨ihs, ihp⟩ := asteroidLoop_offscreen_main g gx gy hg hgx fuel (i + 1)
        (processAsteroid g gx gy i st) hlen' hmax'
      constructor
      · rw [ihs, processAsteroid_drop_countP g gx gy i st hg hilen,
            List.drop_eq_getElem_cons hilen, List.countP_cons]
        by_cases hoff : (st.asteroids.getD i default).x - SPEED_ASTEROID < -2
        · rw [(processAsteroid_offscreen_elem g gx gy i st hgx hilen hoff).2]
          have hpa : (decide (st.asteroids[i].x - SPEED_ASTEROID < -2)) = true := by
            rw [decide_eq_true_iff, ← List.getD_eq_getElem st.asteroids default hilen]
            exact hoff
          rw [hpa]
          simp only [if_true]
          push_cast
          ring
        · rw [processAsteroid_score_not_offscreen g gx gy i st hilen hoff]
          have hpa : (decide (st.asteroids[i].x - SPEED_ASTEROID < -2)) = false := by
            rw [decide_eq_false_iff_not, ← List.getD_eq_getElem st.asteroids default hilen]
            exact hoff
          rw [hpa]
          push_cast
          simp
      · intro j hij hjl hoffj
        rcases eq_or_lt_of_le hij with heq | hlt
        · subst heq
          have hframe := asteroidLoop_getElem?_lt g gx gy fuel (i + 1)
            (processAsteroid g gx gy i st) i (Nat.lt_succ_self i)
            (lt_of_lt_of_le hjl (processAsteroid_length g gx gy i st).1)
          have he := (processAsteroid_offscreen_elem g gx gy i st hgx hjl hoffj).1
          have hval : (asteroidLoop g gx gy fuel (i + 1)
              (processAsteroid g gx gy i st)).asteroids.getD i default =
              (createAsteroid g st.k st.score).1 := by
            rw [List.getD_eq_getElem?_getD, hframe, he, Option.getD_some]
          rw [hval]
          exact createAsteroid_fresh_bounds g st.k st.score hg
        · have hjl' : j < (processAsteroid g gx gy i st).asteroids.length :=
            lt_of_lt_of_le hjl (processAsteroid_length g gx gy i st).1
          have heq' : (processAsteroid g gx gy i st).asteroids[j]? = st.asteroids[j]? :=
            processAsteroid_getElem?_ne g gx gy i st j (Nat.ne_of_gt hlt) hjl
          have hgetD : (processAsteroid g gx gy i st).asteroids.getD j default =
              st.asteroids.getD j default := by
            rw [List.getD_eq_getElem?_getD, heq', ← List.getD_eq_getElem?_getD]
          exact ihp j hlt hjl' (by rw [hgetD]; exact hoffj)
    · next hilen =>
      constructor
      · rw [List.drop_eq_nil_of_le (by omega), List.countP_nil]
        simp
      · intro j hij hjl _
        exact absurd hjl (by omega)

-- ════════════════════════════════════════════════════════════════════════════
-- C3: off-screen asteroids are recycled
-- ════════════════════════════════════════════════════════════════════════════

/-- C3: in an `updateUser` call with the game not over, every asteroid whose
x coordinate drops below -2 after this tick's leftward move is replaced, in
place, by a freshly created asteroid with `x ≥ WIDTH` and `y ∈ [2, HEIGHT-3]`,
and the score goes up by exactly one for each such asteroid (and nothing
else — fresh spawns, including pushed ones, are never off-screen). -/
theorem spaceDemo_offscreen_asteroid_recycled (g : ℕ → ℚ) (k : ℕ) (inp : Inputs)
    (s : SpaceUserData) (i : ℕ)
    (hg : ∀ n, 0 ≤ g n ∧ g n < 1) (hgo : s.gameOver = false)
    (hi : i < s.asteroids.length)
    (hoff : (s.asteroids.getD i default).x - SPEED_ASTEROID < -2) :
    WIDTH ≤ ((updateUser g k inp s).asteroids.getD i default).x ∧
    2 ≤ ((updateUser g k inp s).asteroids.getD i default).y ∧
    ((updateUser g k inp s).asteroids.getD i default).y ≤ HEIGHT - 3 ∧
    (updateUser g k inp s).score =
      s.score + (s.asteroids.countP
        (fun a => decide (a.x - SPEED_ASTEROID < -2)) : ℤ) := by
  have hu : updateUser g k inp s = tickBody g k inp s := by simp [updateUser, hgo]
  rw [hu]
  have hgx : (1 : ℤ) ≤ ⌊max 1 (min 15 (s.shipX + inp.moveX * SPEED_SHIP))⌋ := by
    rw [Int.le_floor]
    exact le_trans (by norm_num) (le_max_left _ _)
  obtain ⟨hscore, hpos⟩ := asteroidLoop_offscreen_main g
    ⌊max 1 (min 15 (s.shipX + inp.moveX * SPEED_SHIP))⌋
    ⌊max 2 (min (HEIGHT - 3) (s.shipY + inp.moveY * SPEED_SHIP))⌋ hg hgx
    (s.asteroids.length + ASTEROIDS_MAX) 0
    ⟨s.asteroids, s.score, s.lives,
      (if s.invincibilityFrames > 0 then s.invincibilityFrames - 1
       else s.invincibilityFrames), s.gameOver,
      (scrollStars g (scrollStars g k SPEED_STARS_FAR s.starsFar).2
        SPEED_STARS_NEAR s.starsNear).2⟩
    (by simp) (by simp)
  have hp := hpos i (Nat.zero_le i) hi hoff
  exact ⟨hp.1, hp.2.1, hp.2.2, hscore⟩

/-- Witness for C3: a single asteroid at x = -3/2, which this tick moves to
-5/2 < -2; it is recycled and the score rises from 0 to 1. -/
theorem spaceDemo_offscreen_asteroid_recycled_witness :
    WIDTH ≤ ((updateUser zeroDraws 0 noInput
        (⟨[], [], [⟨-3/2, 5, "o"⟩], 10, 10, 0, 3, 0, false⟩ : SpaceUserData)).asteroids.getD
          0 default).x ∧
    2 ≤ ((updateUser zeroDraws 0 noInput
        (⟨[], [], [⟨-3/2, 5, "o"⟩], 10, 10, 0, 3, 0, false⟩ : SpaceUserData)).asteroids.getD
          0 default).y ∧
    ((updateUser zeroDraws 0 noInput
        (⟨[], [], [⟨-3/2, 5, "o"⟩], 10, 10, 0, 3, 0, false⟩ : SpaceUserData)).asteroids.getD
          0 default).y ≤ HEIGHT - 3 ∧
    (updateUser zeroDraws 0 noInput
        (⟨[], [], [⟨-3/2, 5, "o"⟩], 10, 10, 0, 3, 0, false⟩ : SpaceUserData)).score =
      (⟨[], [], [⟨-3/2, 5, "o"⟩], 10, 10, 0, 3, 0, false⟩ : SpaceUserData).score +
        ((⟨[], [], [⟨-3/2, 5, "o"⟩], 10, 10, 0, 3, 0, false⟩ : SpaceUserData).asteroids.countP
          (fun a => decide (a.x - SPEED_ASTEROID < -2)) : ℤ) :=
  spaceDemo_offscreen_asteroid_recycled zeroDraws 0 noInput _ 0
    (fun _ => ⟨by norm_num [zeroDraws], by norm_num [zeroDraws]⟩) rfl (by decide) (by decide)

-- ════════════════════════════════════════════════════════════════════════════
-- Supporting facts: the iteration budget is sufficient, and every reachable
-- state keeps at least ASTEROIDS_START asteroids
-- ════════════════════════════════════════════════════════════════════════════

/-- The loop result does not depend on the iteration budget once the budget
covers `max length ASTEROIDS_MAX - i`: the budget used by `tickBody`
(`length + ASTEROIDS_MAX`) therefore reproduces the unbounded `for`-loop of
the source exactly. -/
theorem asteroidLoop_fuel_sufficient (g : ℕ → ℚ) (gx gy : ℤ) :
    ∀ (fuel fuel' i : ℕ) (st : LoopState),
      st.asteroids.length ≤ i + fuel → ASTEROIDS_MAX ≤ i + fuel →
      st.asteroids.length ≤ i + fuel' → ASTEROIDS_MAX ≤ i + fuel' →
      asteroidLoop g gx gy fuel i st = asteroidLoop g gx gy fuel' i st
  | 0, fuel', i, st, hlen, _, _, _ => by
    cases fuel' with
    | zero => rfl
    | succ f' =>
      simp only [asteroidLoop]
      rw [if_neg (by omega)]
  | fuel + 1, fuel', i, st, hlen, hmax, hlen', hmax' => by
    by_cases hi : i < st.asteroids.length
    · cases fuel' with
      | zero => exact absurd hlen' (by omega)
      | succ f' =>
        simp only [asteroidLoop, if_pos hi]
        have hb := (processAsteroid_length g gx gy i st).2
        have h2 : max st.asteroids.length ASTEROIDS_MAX ≤ i + (fuel + 1) :=
          max_le hlen hmax
        have h2' : max st.asteroids.length ASTEROIDS_MAX ≤ i + (f' + 1) :=
          max_le hlen' hmax'
        have h3 := hb.trans h2
        have h3' := hb.trans h2'
        exact asteroidLoop_fuel_sufficient g gx gy fuel f' (i + 1)
          (processAsteroid g gx gy i st) (by omega) (by omega) (by omega) (by omega)
    · cases fuel' with
      | zero => simp only [asteroidLoop]; rw [if_neg hi]
      | succ f' => simp only [asteroidLoop]; rw [if_neg hi, if_neg hi]

theorem freshenAsteroids_length (g : ℕ → ℚ) :
    ∀ (k : ℕ) (l : List Asteroid), (freshenAsteroids g k l).1.length = l.length
  | _, [] => rfl
  | k, _ :: rest => by
    simp only [freshenAsteroids, List.length_cons]
    rw [freshenAsteroids_length g _ rest]

/-- Every reachable state keeps at least `ASTEROIDS_START` asteroids: the
count starts there, never shrinks during a tick, and a restart truncates to
exactly `ASTEROIDS_START`. -/
theorem reachable_asteroid_count (s : SpaceUserData) (h : Reachable s) :
    ASTEROIDS_START ≤ s.asteroids.length := by
  induction h with
  | init g k => simp [initUserState, ASTEROIDS_START]
  | step g k inp s hs ih =>
    unfold updateUser
    cases hgo : s.gameOver with
    | false => exact le_trans ih (tickBody_asteroids_length g k inp s).1
    | true =>
      cases hr : inp.restartJustPressed with
      | false => simpa using ih
      | true =>
        simp only [if_pos rfl]
        refine le_trans ?_ (tickBody_asteroids_length g (resetGame g k s).2 inp
          (resetGame g k s).1).1
        show ASTEROIDS_START ≤
          (freshenAsteroids g k (s.asteroids.take ASTEROIDS_START)).1.length
        rw [freshenAsteroids_length, List.length_take]
        simp only [ASTEROIDS_START] at ih ⊢
        omega
